import Mathlib

/-!
Shallow embedding of the request-telemetry pipeline of this repository
(`prom.py`: `PromMetricsMiddleware`, `_get_registry`, the `http_requests_total`
and `latency` metric handlers, `PrometheusInstrumentator.instrument_app`;
`tracing.py`: `get_headers`, `server_request_hook`), together with theorems
settling the specification claims about it.

Python dicts over string keys are embedded as association lists; `os.environ`
and `os.path.isdir` are embedded as an explicit environment association list
and an explicit list of existing directories.  Exceptions are embedded with
`Except`.  Wall-clock time is embedded as `Nat` time stamps supplied by the
caller of `call_next`.
-/

namespace PromModel

/-- Python `str.upper()`, character-wise. -/
def strUpper (s : String) : String := ⟨s.data.map Char.toUpper⟩

/-- Python `str.lower()`, character-wise (Starlette lower-cases header keys). -/
def strLower (s : String) : String := ⟨s.data.map Char.toLower⟩

/-- `dict.get(k)` on a Python dict built from a list of pairs: the last
binding of a key wins (Python dict construction overwrites). -/
def pyDictGet (d : List (String × String)) (k : String) : Option String :=
  d.foldl (fun acc p => if p.1 = k then some p.2 else acc) none

/-- `request.headers.get(k)`: Starlette header lookup, case-insensitive,
first matching header wins. -/
def headersGet (hs : List (String × String)) (k : String) : Option String :=
  match hs with
  | [] => none
  | p :: rest => if strLower p.1 = strLower k then some p.2 else headersGet rest k

/-- Inbound HTTP request as the middleware sees it: `request.headers`,
`request.method`, `request.url.path`. -/
structure Request where
  headers : List (String × String)
  method : String
  path : String
deriving Repr, DecidableEq

/-- Response produced by the downstream handler chain (`call_next`). -/
structure Response where
  status_code : Nat
  content : String
deriving Repr, DecidableEq

/-- The `ResponseInfo` namedtuple of `prom.py`. -/
structure ResponseInfo where
  exec_time : Nat
  headers : List (String × String)
  status_code : Nat
  status_group : String
  endpoint : String
  method : String
deriving Repr, DecidableEq

/-- The label tuple used by both metric handlers:
`{service_name, status_code, status_group, endpoint, method, uid}`.
`uid` is `Option String` because `headers.get('uid')` yields `None`
when the header is absent. -/
structure Labels where
  service_name : String
  status_code : Nat
  status_group : String
  endpoint : String
  method : String
  uid : Option String
deriving Repr, DecidableEq

/-- Add `v` to the counter cell of label tuple `l`, creating the cell lazily
on first observation (prometheus-client counter semantics). -/
def counterAdd (cs : List (Labels × Nat)) (l : Labels) (v : Nat) : List (Labels × Nat) :=
  match cs with
  | [] => [(l, v)]
  | (l', v') :: rest => if l' = l then (l', v' + v) :: rest else (l', v') :: counterAdd rest l v

/-- `Counter.labels(**labels).inc()`: increment by one. -/
def counterInc (cs : List (Labels × Nat)) (l : Labels) : List (Labels × Nat) :=
  counterAdd cs l 1

/-- Value of the counter cell at label tuple `l`, if the cell exists. -/
def counterLookup (cs : List (Labels × Nat)) (l : Labels) : Option Nat :=
  match cs with
  | [] => none
  | (l', v) :: rest => if l' = l then some v else counterLookup rest l

/-- Value of the counter cell at label tuple `l`, defaulting to `d`. -/
def counterGetD (cs : List (Labels × Nat)) (l : Labels) (d : Nat) : Nat :=
  (counterLookup cs l).getD d

/-- `Histogram.labels(**labels).observe(t)`: append the observation to the
cell of label tuple `l`, creating the cell lazily. -/
def histObserve (hs : List (Labels × List Nat)) (l : Labels) (t : Nat) :
    List (Labels × List Nat) :=
  match hs with
  | [] => [(l, [t])]
  | (l', os) :: rest => if l' = l then (l', os ++ [t]) :: rest else (l', os) :: histObserve rest l t

/-- Observations of the histogram cell at label tuple `l`, if the cell exists. -/
def histLookup (hs : List (Labels × List Nat)) (l : Labels) : Option (List Nat) :=
  match hs with
  | [] => none
  | (l', os) :: rest => if l' = l then some os else histLookup rest l

/-- State of the process-wide metric registry: one counter metric
(`http_requests_total`) and one histogram metric
(`http_request_duration_seconds`), each keyed by label tuple. -/
structure MetricsState where
  counter : List (Labels × Nat)
  histogram : List (Labels × List Nat)
deriving Repr, DecidableEq

/-- A metric handler: a callable taking a `ResponseInfo` and mutating the
registry, possibly raising (embedded as `Except`). -/
abbrev Handler := ResponseInfo → MetricsState → Except String MetricsState

/-- The `ResponseInfo` instance built inside `PromMetricsMiddleware.dispatch`
(lines computing `exec_time`, `headers`, `status_code`, `status_group`,
`method`, `endpoint`). -/
def mkResponseInfo (request : Request) (response : Response) (exec_time : Nat) :
    ResponseInfo :=
  { exec_time := exec_time
    headers := request.headers
    status_code := response.status_code
    status_group := (toString response.status_code).take 1 ++ "xx"
    endpoint := request.path
    method := strUpper request.method }

/-- The handler fan-out loop `for handler in self.metrics: handler(info)`:
handlers run in registration order; a raising handler aborts the loop and
the exception propagates. -/
def runHandlers (metrics : List Handler) (info : ResponseInfo) (st : MetricsState) :
    Except String MetricsState :=
  match metrics with
  | [] => .ok st
  | h :: rest =>
    match h info st with
    | .ok st2 => runHandlers rest info st2
    | .error e => .error e

namespace PromMetricsMiddleware

/-- `PromMetricsMiddleware.dispatch`: time the downstream call, build the
`ResponseInfo`, fan it out to every metric handler, return the original
response.  `call_next` returns the wall-clock time at which the response
became available together with the response. -/
def dispatch (metrics : List Handler) (request : Request)
    (call_next : Request → Nat × Response) (start : Nat) (st : MetricsState) :
    Except String (MetricsState × Response) :=
  let r := call_next request
  let exec_time := r.1 - start
  let info := mkResponseInfo request r.2 exec_time
  match runHandlers metrics info st with
  | .ok st2 => .ok (st2, r.2)
  | .error e => .error e

end PromMetricsMiddleware

/-- Python exceptions raised by the setup code. -/
inductive PyErr where
  | valueError (msg : String)
deriving Repr, DecidableEq

/-- The registry returned by `_get_registry`: either the default global
`REGISTRY` or a fresh `CollectorRegistry` wearing a `MultiProcessCollector`. -/
inductive Registry where
  | default
  | multiprocess
deriving Repr, DecidableEq

/-- `_get_registry`: consult `os.environ['prometheus_multiproc_dir']`; if set,
require it to be an existing directory (else raise `ValueError`) and build a
multiprocess registry; if unset, return the default registry.  `env` embeds
`os.environ`, `dirs` embeds the set of paths for which `os.path.isdir` holds.
The raised message reproduces the source's literal `\x7bpmd\x7d` (the second
fragment of the message is not an f-string in the source). -/
def _get_registry (env : List (String × String)) (dirs : List String) :
    Except PyErr Registry :=
  match pyDictGet env "prometheus_multiproc_dir" with
  | some pmd =>
    if dirs.contains pmd then
      .ok .multiprocess
    else
      .error (.valueError "Unable to generate Prometheus registry: invalid directory \x7bpmd\x7d")
  | none => .ok .default

/-- The label dict built inside the `instrument` closure of
`http_requests_total`. -/
def http_requests_total_labels (service_name : String) (info : ResponseInfo) : Labels :=
  let uid := headersGet info.headers "uid"
  { service_name := service_name
    status_code := info.status_code
    status_group := info.status_group
    endpoint := info.endpoint
    method := info.method
    uid := uid }

/-- `http_requests_total(service_name)`: returns the `instrument` closure that
increments the `http_requests_total` counter at the computed label tuple. -/
def http_requests_total (service_name : String) : Handler :=
  fun info st =>
    .ok { st with counter := counterInc st.counter (http_requests_total_labels service_name info) }

/-- The label dict built inside the `instrument` closure of `latency`. -/
def latency_labels (service_name : String) (info : ResponseInfo) : Labels :=
  let uid := headersGet info.headers "uid"
  { service_name := service_name
    status_code := info.status_code
    status_group := info.status_group
    endpoint := info.endpoint
    method := info.method
    uid := uid }

/-- `latency(service_name)`: returns the `instrument` closure that observes
`info.exec_time` into the `http_request_duration_seconds` histogram at the
computed label tuple. -/
def latency (service_name : String) : Handler :=
  fun info st =>
    .ok { st with histogram := histObserve st.histogram (latency_labels service_name info) info.exec_time }

/-- The `METRIC_HANDLERS` list of `prom.py`. -/
def METRIC_HANDLERS : List (String → Handler) :=
  [http_requests_total, latency]

/-- The mutable FastAPI application object: its installed middleware stack
(`app.user_middleware`, each entry carrying its bound handler list) and its
registered route paths. -/
structure FastAPIApp where
  user_middleware : List (List Handler)
  routes : List String

namespace PrometheusInstrumentator

/-- `PrometheusInstrumentator.instrument_app`: build the handlers, install the
middleware (Starlette `add_middleware` prepends to `user_middleware`), then
build the registry — which may raise — and only then register the
`GET /metrics` route.  Because the app object is mutated in place, a raise
from `_get_registry` leaves the already-installed middleware behind: the
error case carries the app state at the moment of the raise. -/
def instrument_app (env : List (String × String)) (dirs : List String)
    (app : FastAPIApp) (service_name : String) :
    Except (PyErr × FastAPIApp) FastAPIApp :=
  let metrics := METRIC_HANDLERS.map (fun m => m service_name)
  let app1 : FastAPIApp := { app with user_middleware := metrics :: app.user_middleware }
  match _get_registry env dirs with
  | .error e => .error (e, app1)
  | .ok _ =>
    let app2 : FastAPIApp := { app1 with routes := app1.routes ++ ["/metrics"] }
    .ok app2

end PrometheusInstrumentator

/-- Modelled from the spec: the scrape-time multiprocess merge performed by
`prometheus_client.multiprocess.MultiProcessCollector` (constructed by
`_get_registry`, read by the `metrics` route), whose code is outside this
repository.  Spec §4.4: "a merge routine enumerates all shard files present
in the directory, deserializes each, and folds them into one logical
MetricState per metric name using: Counters → sum of per-shard values per
label-tuple (treating a missing label-tuple in a shard as 0)".  Folding one
shard into the accumulated view. -/
def mergeShard (acc shard : List (Labels × Nat)) : List (Labels × Nat) :=
  shard.foldl (fun a p => counterAdd a p.1 p.2) acc

/-- Modelled from the spec: the read-time fold over the enumerable set of
shard files (spec §4.4, §9 "treat as an explicit read-time fold over a
bounded, enumerable set of shard files"). -/
def mergeShards (shards : List (List (Labels × Nat))) : List (Labels × Nat) :=
  shards.foldl mergeShard []

/-- A scrape request: `GET /metrics` with no headers. -/
def scrapeRequest : Request := { headers := [], method := "GET", path := "/metrics" }

/-- The label tuple the counter handler produces for a `200` scrape of
`GET /metrics` by service `svc`. -/
def scrapeLabels : Labels :=
  { service_name := "svc", status_code := 200, status_group := "2xx",
    endpoint := "/metrics", method := "GET", uid := none }

/-- Did the embedded setup call raise a `ValueError`? -/
def raisesValueError : Except (PyErr × FastAPIApp) FastAPIApp → Bool
  | .error (.valueError _, _) => true
  | .ok _ => false

/-- Is the `GET /metrics` route registered on the app object once
`instrument_app` has returned or raised? -/
def metricsRouteRegistered : Except (PyErr × FastAPIApp) FastAPIApp → Bool
  | .ok a => a.routes.contains "/metrics"
  | .error (_, a) => a.routes.contains "/metrics"

/-- Number of middleware entries installed on the app object once
`instrument_app` has returned or raised. -/
def middlewareCount : Except (PyErr × FastAPIApp) FastAPIApp → Nat
  | .ok a => a.user_middleware.length
  | .error (_, a) => a.user_middleware.length

end PromModel

namespace TracingModel

/-- The HTTP context handed to the tracing request hook, reduced to its
`headers` entry: a list of key/value pairs (the byte decoding of
`get_headers` is the identity in this embedding). -/
structure HookContext where
  headers : List (String × String)
deriving Repr, DecidableEq

/-- `get_headers`: turn the context into the Python dict of request headers
(dict comprehension over the header pairs; the last binding of a key wins,
which the embedding's `pyDictGet` implements). -/
def get_headers (context : HookContext) : List (String × String) :=
  context.headers

/-- An OpenTelemetry span, reduced to what the hook consults and mutates:
whether it is recording, and its attribute map. -/
structure Span where
  is_recording : Bool
  attributes : List (String × String)

/-- Attribute lookup on a span's attribute map. -/
def attrGet (d : List (String × String)) (k : String) : Option String :=
  match d with
  | [] => none
  | p :: rest => if p.1 = k then some p.2 else attrGet rest k

/-- `span.set_attribute(k, v)`: overwrite the attribute `k` with `v`. -/
def Span.set_attribute (span : Span) (k v : String) : Span :=
  { span with attributes := (k, v) :: span.attributes.filter (fun p => p.1 ≠ k) }

/-- The attribute value the hook computes for header name `h`:
`value if value else 'not set'` where `value = request_headers.get(h)` —
the header's value when present and non-empty, `"not set"` when absent or
empty. -/
def hookValue (request_headers : List (String × String)) (h : String) : String :=
  match PromModel.pyDictGet request_headers h with
  | some v => if v = "" then "not set" else v
  | none => "not set"

/-- `server_request_hook`: parse the request headers from the context and,
when the span is present and recording, set one span attribute per
allow-listed header name.  Returns the final span state. -/
def server_request_hook (headers : List String) (span : Option Span)
    (context : HookContext) : Option Span :=
  let request_headers := get_headers context
  match span with
  | none => none
  | some s =>
    if s.is_recording then
      some (headers.foldl (fun sp h => sp.set_attribute h (hookValue request_headers h)) s)
    else
      some s

end TracingModel

namespace PromModel

/-! ### Helper lemmas about the registry state -/

theorem counterLookup_add_self (cs : List (Labels × Nat)) (l : Labels) (v : Nat) :
    counterLookup (counterAdd cs l v) l = some (counterGetD cs l 0 + v) := by
  induction cs with
  | nil => simp [counterAdd, counterLookup, counterGetD]
  | cons p rest ih =>
    obtain ⟨l', v'⟩ := p
    by_cases h : l' = l
    · simp [counterAdd, counterLookup, counterGetD, h]
    · simp [counterAdd, counterLookup, counterGetD, h] at ih ⊢
      exact ih

theorem counterLookup_add_ne (cs : List (Labels × Nat)) (l l' : Labels) (v : Nat)
    (h : l' ≠ l) : counterLookup (counterAdd cs l' v) l = counterLookup cs l := by
  induction cs with
  | nil => simp [counterAdd, counterLookup, h]
  | cons p rest ih =>
    obtain ⟨l'', v''⟩ := p
    by_cases h2 : l'' = l'
    · subst h2; simp [counterAdd, counterLookup, h, Ne.symm h]
    · by_cases h3 : l'' = l <;>
        simp [counterAdd, counterLookup, h, Ne.symm h, h2, h3, ih]

theorem counterLookup_inc_self (cs : List (Labels × Nat)) (l : Labels) :
    counterLookup (counterInc cs l) l = some (counterGetD cs l 0 + 1) :=
  counterLookup_add_self cs l 1

theorem counterLookup_eq_none_of_not_mem (cs : List (Labels × Nat)) (l : Labels)
    (h : l ∉ cs.map Prod.fst) : counterLookup cs l = none := by
  induction cs with
  | nil => rfl
  | cons p rest ih =>
    simp only [List.map_cons, List.mem_cons] at h
    push_neg at h
    simp [counterLookup, Ne.symm h.1, ih h.2]

theorem histLookup_observe_self (hs : List (Labels × List Nat)) (l : Labels) (t : Nat) :
    histLookup (histObserve hs l t) l = some ((histLookup hs l).getD [] ++ [t]) := by
  induction hs with
  | nil => simp [histObserve, histLookup]
  | cons p rest ih =>
    obtain ⟨l', os⟩ := p
    by_cases h : l' = l
    · simp [histObserve, histLookup, h]
    · simp [histObserve, histLookup, h] at ih ⊢
      exact ih

theorem runHandlers_append_error (pre : List Handler) (h : Handler) (post : List Handler)
    (info : ResponseInfo) (st st1 : MetricsState) (e : String)
    (hpre : runHandlers pre info st = .ok st1) (hfail : h info st1 = .error e) :
    runHandlers (pre ++ h :: post) info st = .error e := by
  induction pre generalizing st with
  | nil =>
    simp only [runHandlers] at hpre
    cases hpre
    simp [runHandlers, hfail]
  | cons h0 rest ih =>
    simp only [runHandlers] at hpre ⊢
    cases hr : h0 info st with
    | ok st2 => rw [hr] at hpre; exact ih st2 hpre
    | error e0 => rw [hr] at hpre; cases hpre

/-! ### Claim theorems -/

/-- Claim C8: for every `ResponseInfo` and every `serviceName`, the label
tuple computed by the `http_requests_total` counter handler and the label
tuple computed by the `latency` histogram handler are identical: the same six
labels with equal values. -/
theorem counter_and_histogram_labels_identical (service_name : String) (info : ResponseInfo) :
    http_requests_total_labels service_name info = latency_labels service_name info := rfl

set_option maxRecDepth 10000 in
theorem statusGroup_digit_key : ∀ n : Fin 600, 100 ≤ n.val →
    (toString n.val).take 1 = toString (n.val / 100) := by decide

/-- Claim C5: for every completed request (HTTP status codes lie in
100..599), the `ResponseInfo` built by the middleware has `status_group`
equal to the leading digit of `status_code` concatenated with `"xx"`. -/
theorem status_group_matches_leading_digit (request : Request) (response : Response)
    (exec_time : Nat) (h1 : 100 ≤ response.status_code) (h2 : response.status_code ≤ 599) :
    (mkResponseInfo request response exec_time).status_group
      = toString (response.status_code / 100) ++ "xx" := by
  show (toString response.status_code).take 1 ++ "xx" = _
  rw [statusGroup_digit_key ⟨response.status_code, by omega⟩ h1]

/-- Witness for C5 at status code 404: the status group is `"4xx"`. -/
theorem status_group_matches_leading_digit_witness :
    100 ≤ (404 : Nat) ∧ (404 : Nat) ≤ 599 ∧
    (mkResponseInfo ⟨[], "GET", "/items"⟩ ⟨404, ""⟩ 0).status_group
      = toString ((404 : Nat) / 100) ++ "xx" :=
  ⟨by decide, by decide,
    status_group_matches_leading_digit ⟨[], "GET", "/items"⟩ ⟨404, ""⟩ 0 (by decide) (by decide)⟩

/-- Claim C6: whenever `dispatch` returns a response (no handler raised), the
response it returns is exactly the response produced by `call_next`: the
handler fan-out neither replaces nor modifies it. -/
theorem dispatch_returns_response_unchanged (metrics : List Handler) (request : Request)
    (call_next : Request → Nat × Response) (start : Nat) (st st2 : MetricsState)
    (response : Response)
    (h : PromMetricsMiddleware.dispatch metrics request call_next start st
      = .ok (st2, response)) :
    response = (call_next request).2 := by
  simp only [PromMetricsMiddleware.dispatch] at h
  cases hr : runHandlers metrics
      (mkResponseInfo request (call_next request).2 ((call_next request).1 - start)) st with
  | ok st3 =>
    rw [hr] at h
    cases h
    rfl
  | error e =>
    rw [hr] at h
    cases h

/-- Witness for C6 on a concrete request with no handlers. -/
theorem dispatch_returns_response_unchanged_witness :
    PromMetricsMiddleware.dispatch [] ⟨[], "GET", "/a"⟩ (fun _ => (5, ⟨200, "body"⟩)) 2
        ⟨[], []⟩ = .ok (⟨[], []⟩, ⟨200, "body"⟩) ∧
    (⟨200, "body"⟩ : Response) = ((fun _ => (5, ⟨200, "body"⟩)) (⟨[], "GET", "/a"⟩ : Request)).2 :=
  ⟨rfl, dispatch_returns_response_unchanged [] ⟨[], "GET", "/a"⟩
    (fun _ => (5, ⟨200, "body"⟩)) 2 ⟨[], []⟩ ⟨[], []⟩ ⟨200, "body"⟩ rfl⟩

/-- Claim C4: if a registered handler raises while observing the record, the
middleware does not catch it: `dispatch` results in that very exception for
any list of later handlers (which are therefore never invoked), and no
response is returned. -/
theorem handler_error_propagates (pre : List Handler) (h : Handler) (post : List Handler)
    (request : Request) (call_next : Request → Nat × Response) (start : Nat)
    (st st1 : MetricsState) (e : String)
    (hpre : runHandlers pre
      (mkResponseInfo request (call_next request).2 ((call_next request).1 - start)) st
      = .ok st1)
    (hfail : h (mkResponseInfo request (call_next request).2 ((call_next request).1 - start)) st1
      = .error e) :
    PromMetricsMiddleware.dispatch (pre ++ h :: post) request call_next start st = .error e := by
  simp only [PromMetricsMiddleware.dispatch]
  rw [runHandlers_append_error pre h post _ st st1 e hpre hfail]

/-- Witness for C4: a failing handler placed between two successful ones
aborts the dispatch with its exception. -/
theorem handler_error_propagates_witness :
    runHandlers [http_requests_total "svc"]
      (mkResponseInfo ⟨[], "GET", "/a"⟩ ((fun (_ : Request) => ((3 : Nat), (⟨200, ""⟩ : Response))) ⟨[], "GET", "/a"⟩).2
        (((fun (_ : Request) => ((3 : Nat), (⟨200, ""⟩ : Response))) ⟨[], "GET", "/a"⟩).1 - 0)) ⟨[], []⟩
      = .ok ⟨[((⟨"svc", 200, "2xx", "/a", "GET", none⟩ : Labels), 1)], []⟩ ∧
    PromMetricsMiddleware.dispatch
      [http_requests_total "svc", fun _ _ => .error "boom", latency "svc"]
      ⟨[], "GET", "/a"⟩ (fun _ => (3, ⟨200, ""⟩)) 0 ⟨[], []⟩ = .error "boom" :=
  ⟨rfl, handler_error_propagates [http_requests_total "svc"] (fun _ _ => .error "boom")
    [latency "svc"] ⟨[], "GET", "/a"⟩ (fun _ => (3, ⟨200, ""⟩)) 0 ⟨[], []⟩
    ⟨[((⟨"svc", 200, "2xx", "/a", "GET", none⟩ : Labels), 1)], []⟩ "boom" rfl rfl⟩

/-- Claim C7: when the request headers contain no `uid` header, both the
counter handler and the histogram handler still record an observation: no
exception is raised, the label tuple carries the `none` sentinel for `uid`,
and the cell at that label tuple is present (not omitted). -/
theorem missing_uid_header_still_observed (service_name : String) (info : ResponseInfo)
    (st : MetricsState) (h : headersGet info.headers "uid" = none) :
    (http_requests_total_labels service_name info).uid = none ∧
    http_requests_total service_name info st
      = .ok { st with counter := counterInc st.counter (http_requests_total_labels service_name info) } ∧
    counterLookup (counterInc st.counter (http_requests_total_labels service_name info))
        (http_requests_total_labels service_name info)
      = some (counterGetD st.counter (http_requests_total_labels service_name info) 0 + 1) ∧
    latency service_name info st
      = .ok { st with histogram := histObserve st.histogram (latency_labels service_name info) info.exec_time } ∧
    histLookup (histObserve st.histogram (latency_labels service_name info) info.exec_time)
        (latency_labels service_name info)
      = some ((histLookup st.histogram (latency_labels service_name info)).getD [] ++ [info.exec_time]) := by
  refine ⟨?_, rfl, counterLookup_inc_self .., rfl, histLookup_observe_self ..⟩
  simp [http_requests_total_labels, h]

/-- Witness for C7 on a record whose headers list is empty. -/
theorem missing_uid_header_still_observed_witness :
    headersGet ([] : List (String × String)) "uid" = none ∧
    ((http_requests_total_labels "svc" ⟨7, [], 200, "2xx", "/a", "GET"⟩).uid = none ∧
      http_requests_total "svc" ⟨7, [], 200, "2xx", "/a", "GET"⟩ ⟨[], []⟩
        = .ok { counter := counterInc [] (http_requests_total_labels "svc" ⟨7, [], 200, "2xx", "/a", "GET"⟩), histogram := [] } ∧
      counterLookup (counterInc [] (http_requests_total_labels "svc" ⟨7, [], 200, "2xx", "/a", "GET"⟩))
          (http_requests_total_labels "svc" ⟨7, [], 200, "2xx", "/a", "GET"⟩)
        = some (counterGetD [] (http_requests_total_labels "svc" ⟨7, [], 200, "2xx", "/a", "GET"⟩) 0 + 1) ∧
      latency "svc" ⟨7, [], 200, "2xx", "/a", "GET"⟩ ⟨[], []⟩
        = .ok { counter := [], histogram := histObserve [] (latency_labels "svc" ⟨7, [], 200, "2xx", "/a", "GET"⟩) 7 } ∧
      histLookup (histObserve [] (latency_labels "svc" ⟨7, [], 200, "2xx", "/a", "GET"⟩) 7)
          (latency_labels "svc" ⟨7, [], 200, "2xx", "/a", "GET"⟩)
        = some ((histLookup [] (latency_labels "svc" ⟨7, [], 200, "2xx", "/a", "GET"⟩)).getD [] ++ [7])) :=
  ⟨rfl, missing_uid_header_still_observed "svc" ⟨7, [], 200, "2xx", "/a", "GET"⟩ ⟨[], []⟩ rfl⟩

/-- Counterexample to claim C1: dispatching a concrete `GET /metrics` scrape
request through the middleware with the two reference handlers increments
`http_requests_total` at a label tuple whose `endpoint` is `"/metrics"` — the
scrape route is not excluded from the handler fan-out. -/
theorem scrape_request_counted_at_metrics_endpoint :
    PromMetricsMiddleware.dispatch [http_requests_total "svc", latency "svc"]
        scrapeRequest (fun _ => (3, ⟨200, "ok"⟩)) 1 ⟨[], []⟩
      = .ok (⟨[(scrapeLabels, 1)], [(scrapeLabels, [2])]⟩, ⟨200, "ok"⟩)
    ∧ scrapeLabels.endpoint = "/metrics" ∧ counterLookup [(scrapeLabels, 1)] scrapeLabels = some 1 :=
  ⟨rfl, rfl, rfl⟩

/-- Claim C1 as amended: the middleware applies the metric handlers to
requests for `/metrics` like any other request — every dispatched scrape
request increments `http_requests_total` at a label tuple with
`endpoint = "/metrics"`.  (Only the tracing instrumentation excludes the
metrics URL, via `OTEL_PYTHON_FASTAPI_EXCLUDED_URLS` in `tracing.py`.) -/
theorem metrics_route_not_excluded_from_handlers (service_name : String) (request : Request)
    (call_next : Request → Nat × Response) (start : Nat) (st : MetricsState)
    (hpath : request.path = "/metrics") :
    ∃ st2, PromMetricsMiddleware.dispatch [http_requests_total service_name, latency service_name]
        request call_next start st = .ok (st2, (call_next request).2)
      ∧ ∃ l, l.endpoint = "/metrics"
        ∧ counterLookup st2.counter l = some (counterGetD st.counter l 0 + 1) := by
  refine ⟨_, rfl,
    http_requests_total_labels service_name
      (mkResponseInfo request (call_next request).2 ((call_next request).1 - start)), ?_, ?_⟩
  · simp [http_requests_total_labels, mkResponseInfo, hpath]
  · exact counterLookup_inc_self ..

/-- Witness for the amended C1 at a concrete scrape request. -/
theorem metrics_route_not_excluded_from_handlers_witness :
    scrapeRequest.path = "/metrics" ∧
    (∃ st2, PromMetricsMiddleware.dispatch [http_requests_total "svc", latency "svc"]
        scrapeRequest (fun _ => (3, ⟨200, "ok"⟩)) 1 ⟨[], []⟩
        = .ok (st2, ((fun (_ : Request) => ((3 : Nat), (⟨200, "ok"⟩ : Response))) scrapeRequest).2)
      ∧ ∃ l, l.endpoint = "/metrics"
        ∧ counterLookup st2.counter l = some (counterGetD ([] : List (Labels × Nat)) l 0 + 1)) :=
  ⟨rfl, metrics_route_not_excluded_from_handlers "svc" scrapeRequest
    (fun _ => (3, ⟨200, "ok"⟩)) 1 ⟨[], []⟩ rfl⟩

/-- Claim C2: if `prometheus_multiproc_dir` is set to a path that is not an
existing directory, registry construction raises a `ValueError`,
`instrument_app` raises it in turn, and (given the app did not already
expose the route) the `GET /metrics` route is never registered, so no scrape
request ever observes the misconfiguration as a runtime failure of the
route. -/
theorem invalid_multiproc_dir_raises_before_serving
    (env : List (String × String)) (dirs : List String) (app : FastAPIApp)
    (service_name pmd : String)
    (henv : pyDictGet env "prometheus_multiproc_dir" = some pmd)
    (hdir : dirs.contains pmd = false)
    (hroute : app.routes.contains "/metrics" = false) :
    _get_registry env dirs
      = .error (.valueError
          "Unable to generate Prometheus registry: invalid directory \x7bpmd\x7d") ∧
    raisesValueError (PrometheusInstrumentator.instrument_app env dirs app service_name)
      = true ∧
    metricsRouteRegistered (PrometheusInstrumentator.instrument_app env dirs app service_name)
      = false := by
  have hdir2 : pmd ∉ dirs := by simpa using hdir
  have hroute2 : "/metrics" ∉ app.routes := by simpa using hroute
  have hreg : _get_registry env dirs
      = .error (.valueError
          "Unable to generate Prometheus registry: invalid directory \x7bpmd\x7d") := by
    simp [_get_registry, henv, hdir2]
  refine ⟨hreg, ?_, ?_⟩ <;>
    simp [PrometheusInstrumentator.instrument_app, hreg, raisesValueError,
      metricsRouteRegistered, hroute2]

/-- Witness for C2 with `prometheus_multiproc_dir=/bad` and no existing
directories. -/
theorem invalid_multiproc_dir_raises_before_serving_witness :
    pyDictGet [("prometheus_multiproc_dir", "/bad")] "prometheus_multiproc_dir"
      = some "/bad" ∧
    ([] : List String).contains "/bad" = false ∧
    (FastAPIApp.routes ⟨[], []⟩).contains "/metrics" = false ∧
    (_get_registry [("prometheus_multiproc_dir", "/bad")] []
        = .error (.valueError
            "Unable to generate Prometheus registry: invalid directory \x7bpmd\x7d") ∧
      raisesValueError (PrometheusInstrumentator.instrument_app
        [("prometheus_multiproc_dir", "/bad")] [] ⟨[], []⟩ "svc") = true ∧
      metricsRouteRegistered (PrometheusInstrumentator.instrument_app
        [("prometheus_multiproc_dir", "/bad")] [] ⟨[], []⟩ "svc") = false) :=
  ⟨rfl, rfl, rfl,
    invalid_multiproc_dir_raises_before_serving
      [("prometheus_multiproc_dir", "/bad")] [] ⟨[], []⟩ "svc" "/bad" rfl rfl rfl⟩

/-- Counterexample to claim C3: starting from an app with no middleware and
no routes, a failing `instrument_app` still leaves one middleware entry
installed on the app object — the app is not left unchanged, because
`add_middleware` runs before the raising `_get_registry` call and is not
rolled back. -/
theorem instrument_app_error_leaves_middleware_installed :
    raisesValueError (PrometheusInstrumentator.instrument_app
      [("prometheus_multiproc_dir", "/bad")] [] ⟨[], []⟩ "svc") = true ∧
    middlewareCount (PrometheusInstrumentator.instrument_app
      [("prometheus_multiproc_dir", "/bad")] [] ⟨[], []⟩ "svc") = 1 :=
  ⟨rfl, rfl⟩

/-- Claim C3 as amended: when `instrument_app` raises the configuration
error, the `GET /metrics` route has not been registered and the error
propagates (so the service cannot start), but the telemetry middleware has
already been installed on the app object: the error state is exactly the
input app with the handler middleware prepended and the routes unchanged. -/
theorem instrument_app_error_partial_state
    (env : List (String × String)) (dirs : List String) (app : FastAPIApp)
    (service_name pmd : String)
    (henv : pyDictGet env "prometheus_multiproc_dir" = some pmd)
    (hdir : dirs.contains pmd = false) :
    PrometheusInstrumentator.instrument_app env dirs app service_name
      = .error (.valueError
          "Unable to generate Prometheus registry: invalid directory \x7bpmd\x7d",
          { app with
              user_middleware :=
                (METRIC_HANDLERS.map (fun m => m service_name)) :: app.user_middleware }) := by
  have hdir2 : pmd ∉ dirs := by simpa using hdir
  simp [PrometheusInstrumentator.instrument_app, _get_registry, henv, hdir2]

/-- Witness for the amended C3 at a concrete empty app. -/
theorem instrument_app_error_partial_state_witness :
    pyDictGet [("prometheus_multiproc_dir", "/bad")] "prometheus_multiproc_dir"
      = some "/bad" ∧
    ([] : List String).contains "/bad" = false ∧
    PrometheusInstrumentator.instrument_app
        [("prometheus_multiproc_dir", "/bad")] [] ⟨[], []⟩ "svc"
      = .error (.valueError
          "Unable to generate Prometheus registry: invalid directory \x7bpmd\x7d",
          { (⟨[], []⟩ : FastAPIApp) with
              user_middleware :=
                (METRIC_HANDLERS.map (fun m => m "svc"))
                  :: (⟨[], []⟩ : FastAPIApp).user_middleware }) :=
  ⟨rfl, rfl,
    instrument_app_error_partial_state
      [("prometheus_multiproc_dir", "/bad")] [] ⟨[], []⟩ "svc" "/bad" rfl rfl⟩

/-! ### Multiprocess merge lemmas (claim C9) -/

theorem counterGetD_add_self (cs : List (Labels × Nat)) (l : Labels) (v : Nat) :
    counterGetD (counterAdd cs l v) l 0 = counterGetD cs l 0 + v := by
  simp [counterGetD, counterLookup_add_self]

theorem counterGetD_add_ne (cs : List (Labels × Nat)) (l l' : Labels) (v : Nat)
    (h : l' ≠ l) : counterGetD (counterAdd cs l' v) l 0 = counterGetD cs l 0 := by
  simp [counterGetD, counterLookup_add_ne cs l l' v h]

theorem mergeShard_getD (shard acc : List (Labels × Nat)) (l : Labels)
    (h : (shard.map Prod.fst).Nodup) :
    counterGetD (mergeShard acc shard) l 0 = counterGetD acc l 0 + counterGetD shard l 0 := by
  induction shard generalizing acc with
  | nil => simp [mergeShard, counterGetD, counterLookup]
  | cons p rest ih =>
    obtain ⟨lp, vp⟩ := p
    simp only [List.map_cons, List.nodup_cons] at h
    show counterGetD (mergeShard (counterAdd acc lp vp) rest) l 0 = _
    rw [ih (counterAdd acc lp vp) h.2]
    by_cases hl : lp = l
    · subst hl
      rw [counterGetD_add_self,
        show counterGetD rest lp 0 = 0 by
          simp [counterGetD, counterLookup_eq_none_of_not_mem rest lp h.1]]
      simp [counterGetD, counterLookup]
    · rw [counterGetD_add_ne acc l lp vp hl]
      simp [counterGetD, counterLookup, hl]

theorem mergeShards_getD_aux (shards : List (List (Labels × Nat)))
    (acc : List (Labels × Nat)) (l : Labels)
    (h : ∀ s ∈ shards, (s.map Prod.fst).Nodup) :
    counterGetD (shards.foldl mergeShard acc) l 0
      = counterGetD acc l 0 + (shards.map (fun s => counterGetD s l 0)).sum := by
  induction shards generalizing acc with
  | nil => simp
  | cons s rest ih =>
    simp only [List.foldl_cons, List.map_cons, List.sum_cons]
    rw [ih (mergeShard acc s) (fun t ht => h t (List.mem_cons_of_mem _ ht)),
      mergeShard_getD s acc l (h s (List.mem_cons_self _ _))]
    omega

/-- Claim C9: the scrape-time multiprocess merge is the label-wise sum over
all shards — for every label tuple, the merged counter value equals the sum
of that label tuple's value in each shard, a missing label tuple contributing
zero.  (Shards are serialized metric states, so each lists a label tuple at
most once.) -/
theorem multiprocess_merge_labelwise_sum (shards : List (List (Labels × Nat))) (l : Labels)
    (h : ∀ s ∈ shards, (s.map Prod.fst).Nodup) :
    counterGetD (mergeShards shards) l 0 = (shards.map (fun s => counterGetD s l 0)).sum := by
  unfold mergeShards
  rw [mergeShards_getD_aux shards [] l h]
  simp [counterGetD, counterLookup]

/-- Witness for C9: shards holding 3 and 5 at the same label tuple merge to
8 there, and a shard with a disjoint label tuple appears with its own
value 7. -/
theorem multiprocess_merge_labelwise_sum_witness :
    (∀ s ∈ ([[((⟨"svc", 200, "2xx", "/a", "GET", none⟩ : Labels), 3)],
             [((⟨"svc", 200, "2xx", "/a", "GET", none⟩ : Labels), 5)],
             [((⟨"svc", 500, "5xx", "/b", "GET", none⟩ : Labels), 7)]] :
        List (List (Labels × Nat))), (s.map Prod.fst).Nodup) ∧
    counterGetD (mergeShards
        [[((⟨"svc", 200, "2xx", "/a", "GET", none⟩ : Labels), 3)],
         [((⟨"svc", 200, "2xx", "/a", "GET", none⟩ : Labels), 5)],
         [((⟨"svc", 500, "5xx", "/b", "GET", none⟩ : Labels), 7)]])
      (⟨"svc", 200, "2xx", "/a", "GET", none⟩ : Labels) 0
      = (([[((⟨"svc", 200, "2xx", "/a", "GET", none⟩ : Labels), 3)],
           [((⟨"svc", 200, "2xx", "/a", "GET", none⟩ : Labels), 5)],
           [((⟨"svc", 500, "5xx", "/b", "GET", none⟩ : Labels), 7)]] :
          List (List (Labels × Nat))).map
          (fun s => counterGetD s (⟨"svc", 200, "2xx", "/a", "GET", none⟩ : Labels) 0)).sum ∧
    counterGetD (mergeShards
        [[((⟨"svc", 200, "2xx", "/a", "GET", none⟩ : Labels), 3)],
         [((⟨"svc", 200, "2xx", "/a", "GET", none⟩ : Labels), 5)],
         [((⟨"svc", 500, "5xx", "/b", "GET", none⟩ : Labels), 7)]])
      (⟨"svc", 200, "2xx", "/a", "GET", none⟩ : Labels) 0 = 8 ∧
    counterGetD (mergeShards
        [[((⟨"svc", 200, "2xx", "/a", "GET", none⟩ : Labels), 3)],
         [((⟨"svc", 200, "2xx", "/a", "GET", none⟩ : Labels), 5)],
         [((⟨"svc", 500, "5xx", "/b", "GET", none⟩ : Labels), 7)]])
      (⟨"svc", 500, "5xx", "/b", "GET", none⟩ : Labels) 0 = 7 :=
  ⟨by decide, multiprocess_merge_labelwise_sum _ _ (by decide), by decide, by decide⟩

end PromModel

namespace TracingModel

theorem attrGet_filter_ne (d : List (String × String)) (k k' : String) (h : k ≠ k') :
    attrGet (d.filter (fun p => p.1 ≠ k')) k = attrGet d k := by
  induction d with
  | nil => rfl
  | cons p rest ih =>
    rw [List.filter_cons]
    by_cases hp : p.1 = k'
    · have hpk : p.1 ≠ k := by rw [hp]; exact Ne.symm h
      rw [if_neg (by simp [hp]), ih]
      simp only [attrGet, if_neg hpk]
    · rw [if_pos (by simp [hp])]
      by_cases hpk : p.1 = k
      · simp only [attrGet, if_pos hpk]
      · simp only [attrGet, if_neg hpk, ih]

theorem attrGet_set_self (span : Span) (k v : String) :
    attrGet (span.set_attribute k v).attributes k = some v := by
  simp [Span.set_attribute, attrGet]

theorem attrGet_set_ne (span : Span) (k k' v : String) (h : k ≠ k') :
    attrGet (span.set_attribute k' v).attributes k = attrGet span.attributes k := by
  simp only [Span.set_attribute, attrGet]
  rw [if_neg (Ne.symm h)]
  exact attrGet_filter_ne span.attributes k k' h

theorem hook_fold_not_mem (hs : List String) (rh : List (String × String))
    (sp : Span) (k : String) (h : k ∉ hs) :
    attrGet ((hs.foldl (fun s h2 => s.set_attribute h2 (hookValue rh h2)) sp).attributes) k
      = attrGet sp.attributes k := by
  induction hs generalizing sp with
  | nil => rfl
  | cons h0 rest ih =>
    simp only [List.mem_cons] at h
    push_neg at h
    simp only [List.foldl_cons]
    rw [ih _ h.2, attrGet_set_ne sp k h0 _ h.1]

theorem hook_fold_attr (hs : List String) (rh : List (String × String))
    (sp : Span) (k : String) (h : k ∈ hs) :
    attrGet ((hs.foldl (fun s h2 => s.set_attribute h2 (hookValue rh h2)) sp).attributes) k
      = some (hookValue rh k) := by
  induction hs generalizing sp with
  | nil => cases h
  | cons h0 rest ih =>
    simp only [List.foldl_cons]
    by_cases hk : k ∈ rest
    · exact ih _ hk
    · have hk0 : k = h0 := by
        rcases List.mem_cons.mp h with h1 | h2
        · exact h1
        · exact absurd h2 hk
      subst hk0
      rw [hook_fold_not_mem rest rh _ k hk, attrGet_set_self ..]

/-- Claim C10: for every request and every header name in the configured
tracing allowlist, the request hook sets a span attribute for that header
name on every recording span: when the header is present with a non-empty
value the attribute equals that value, and when the header is absent or
empty the attribute is the literal `"not set"` rather than being omitted. -/
theorem request_hook_sets_allowlisted_header_attributes
    (headers : List String) (span : Span) (context : HookContext) (h : String)
    (hrec : span.is_recording = true) (hmem : h ∈ headers) :
    (∀ v, PromModel.pyDictGet (get_headers context) h = some v → v ≠ "" →
      (server_request_hook headers (some span) context).map
          (fun s => attrGet s.attributes h) = some (some v)) ∧
    (PromModel.pyDictGet (get_headers context) h = none →
      (server_request_hook headers (some span) context).map
          (fun s => attrGet s.attributes h) = some (some "not set")) ∧
    (PromModel.pyDictGet (get_headers context) h = some "" →
      (server_request_hook headers (some span) context).map
          (fun s => attrGet s.attributes h) = some (some "not set")) := by
  have key : (server_request_hook headers (some span) context).map
      (fun s => attrGet s.attributes h)
      = some (some (hookValue (get_headers context) h)) := by
    simp only [server_request_hook, hrec, if_true, Option.map]
    rw [hook_fold_attr headers (get_headers context) span h hmem]
  refine ⟨fun v hv hne => ?_, fun hv => ?_, fun hv => ?_⟩ <;>
    rw [key] <;> simp [hookValue, hv]
  intro he
  exact absurd he hne

/-- Witness for C10: allowlist `["uid", "x-empty", "x-gone"]`, a recording
span, and a request carrying `uid: u1` and an empty `x-empty` header. -/
theorem request_hook_sets_allowlisted_header_attributes_witness :
    (⟨true, []⟩ : Span).is_recording = true ∧ "uid" ∈ ["uid", "x-empty", "x-gone"] ∧
    ((∀ v, PromModel.pyDictGet
          (get_headers ⟨[("uid", "u1"), ("x-empty", "")]⟩) "uid" = some v → v ≠ "" →
        (server_request_hook ["uid", "x-empty", "x-gone"] (some ⟨true, []⟩)
            ⟨[("uid", "u1"), ("x-empty", "")]⟩).map
            (fun s => attrGet s.attributes "uid") = some (some v)) ∧
      (PromModel.pyDictGet (get_headers ⟨[("uid", "u1"), ("x-empty", "")]⟩) "uid" = none →
        (server_request_hook ["uid", "x-empty", "x-gone"] (some ⟨true, []⟩)
            ⟨[("uid", "u1"), ("x-empty", "")]⟩).map
            (fun s => attrGet s.attributes "uid") = some (some "not set")) ∧
      (PromModel.pyDictGet (get_headers ⟨[("uid", "u1"), ("x-empty", "")]⟩) "uid" = some "" →
        (server_request_hook ["uid", "x-empty", "x-gone"] (some ⟨true, []⟩)
            ⟨[("uid", "u1"), ("x-empty", "")]⟩).map
            (fun s => attrGet s.attributes "uid") = some (some "not set"))) :=
  ⟨rfl, by decide,
    request_hook_sets_allowlisted_header_attributes ["uid", "x-empty", "x-gone"]
      ⟨true, []⟩ ⟨[("uid", "u1"), ("x-empty", "")]⟩ "uid" rfl (by decide)⟩

end TracingModel
